import Mathlib

/-!
Verification of `jira_agile_metrics/calculators/cycleflow.py`, function
`calculate_cycle_flow_data` (lines 66–122), against its specification.

Modelling choices (shallow embedding of the pandas code):

* A DataFrame cell is `Option Int`: `none` models pandas `NaN`/`NaT`;
  `some v` models a timestamp or a `Timedelta` measured in seconds.
  The source itself mixes the two kinds in one frame: line 83 fills the
  whole projected frame, timestamp column included, with
  `pd.Timedelta(seconds=0)`, and line 87 compares the timestamp column
  against that same zero sentinel.
* `frequency` is modelled as the bucket-assignment map `Int → Int` induced
  by a pandas frequency string; `"1M"`, the default, is `monthlyBucket`
  below.  `df.resample(freq, on=c).agg(np.sum)` emits one row for every
  period label in the contiguous range between the first and the last
  populated period (pandas resample builds a complete regular index over
  the span of the data); an empty bin aggregates to a missing value,
  which line 110 (`fillna(0)`) then zeroes.
* Column selection `cycle_data[[resample_on] + duration_cols]` (line 80)
  raises a pandas `KeyError` naming the absent columns when any requested
  column is not in the frame; this is modelled by `AggError.keyError`.
  The repository also has a `ConfigurationError` exception class (defined
  outside this file); `AggError.configurationError` models it so that
  statements can distinguish the two.  `calculate_cycle_flow_data` itself
  never raises `ConfigurationError`.
* Returning `None` (line 92) is `Except.ok none`; returning the sampled
  frame is `Except.ok (some table)`.
-/

/-- A cell of the cycle-time table: `none` models pandas `NaN`/`NaT`,
`some v` a timestamp or duration measured in seconds. -/
abbrev Cell := Option Int

/-- Model of the pandas `DataFrame` handed to `calculate_cycle_flow_data`:
named columns and a list of rows whose cells are positionally aligned with
`columns`. -/
structure DataFrame where
  columns : List String
  rows : List (List Cell)
deriving Repr, DecidableEq

/-- The result frame: indexed by period label (line 94), one column per
duration column, values in fractional days (line 107). -/
structure CFDTable where
  index : List Int
  cols : List String
  values : List (List Rat)
deriving Repr, DecidableEq

/-- Errors the call can surface.  `keyError` is what the pandas column
selection on line 80 raises for absent columns.  `configurationError`
models the repository's `ConfigurationError` class (modelled from the
spec: it is defined outside this source file and never raised here). -/
inductive AggError where
  | keyError (missing : List String)
  | configurationError (msg : String)
deriving Repr, DecidableEq

deriving instance DecidableEq for Except

/-- Whether an error is the repository's `ConfigurationError`. -/
def isConfigurationError : AggError → Bool
  | AggError.configurationError _ => true
  | AggError.keyError _ => false

/-- Read the `i`-th cell of a row; out-of-range reads as missing. -/
def readCell (row : List Cell) (i : Nat) : Cell :=
  (row.get? i).getD none

/-- Look a cell up by column name. -/
def lookupCell (columns : List String) (row : List Cell) (name : String) : Cell :=
  match columns.indexOf? name with
  | none => none
  | some i => readCell row i

/-- Line 79: `duration_cols = [f"{cycle} duration" for cycle in cycle_names]`. -/
def durationCols (cycle_names : List String) : List String :=
  cycle_names.map (fun c => c ++ " duration")

/-- The columns of `wanted` absent from the frame; a nonempty result makes
the selection on line 80 raise `KeyError`. -/
def missingCols (columns : List String) (wanted : List String) : List String :=
  wanted.filter (fun c => ! columns.contains c)

/-- Lines 80–83: project one row to the timestamp plus the duration
columns, then fill every missing value with the zero sentinel
(`fillna(pd.Timedelta(seconds=0))`). -/
def projectRow (columns : List String) (resample_on : String) (dcols : List String)
    (row : List Cell) : Int × List Int :=
  ((lookupCell columns row resample_on).getD 0,
   dcols.map (fun c => (lookupCell columns row c).getD 0))

/-- Line 87: keep only rows whose filled timestamp differs from the zero
sentinel. -/
def validRows (columns : List String) (resample_on : String) (dcols : List String)
    (rows : List (List Cell)) : List (Int × List Int) :=
  (rows.map (projectRow columns resample_on dcols)).filter (fun p => p.1 != 0)

/-- The contiguous list of integers from `a` to `b` (empty when `b < a`). -/
def intRange (a b : Int) : List Int :=
  (List.range (b - a + 1).toNat).map (fun i : Nat => a + (i : Int))

/-- Minimum of a list of integers (`0` for the empty list, never used so). -/
def listMin (l : List Int) : Int :=
  match l with
  | [] => 0
  | h :: t => t.foldl min h

/-- Maximum of a list of integers (`0` for the empty list, never used so). -/
def listMax (l : List Int) : Int :=
  match l with
  | [] => 0
  | h :: t => t.foldl max h

/-- The period label of each kept row. -/
def bucketsOf (frequency : Int → Int) (valid : List (Int × List Int)) : List Int :=
  valid.map (fun p => frequency p.1)

/-- Line 94, the index of the resampled frame: pandas `resample` emits one
row per period label in the contiguous range spanned by the data. -/
def bucketIndex (frequency : Int → Int) (valid : List (Int × List Int)) : List Int :=
  intRange (listMin (bucketsOf frequency valid)) (listMax (bucketsOf frequency valid))

/-- Line 94, `agg(np.sum)` for one bucket and one duration column
(position `j`); an empty bin aggregates to a missing value. -/
def bucketSum (frequency : Int → Int) (valid : List (Int × List Int))
    (b : Int) (j : Nat) : Option Int :=
  let group := valid.filter (fun p => frequency p.1 == b)
  if group.isEmpty then none
  else some ((group.map (fun p => p.2.getD j 0)).sum)

/-- Line 94: the resampled frame's native-duration cells, one row per
bucket label, one column per duration column. -/
def bucketSums (frequency : Int → Int) (dcols : List String)
    (valid : List (Int × List Int)) : List (List (Option Int)) :=
  (bucketIndex frequency valid).map
    (fun b => (List.range dcols.length).map (bucketSum frequency valid b))

/-- Line 107: `/ np.timedelta64(1, 'D')`, seconds to fractional days. -/
def toDays (s : Int) : Rat :=
  (s : Rat) / 86400

/-- Lines 107 and 110: convert a summed cell to days, then `fillna(0)`. -/
def convertCell (o : Option Int) : Rat :=
  match o with
  | none => 0
  | some s => toDays s

/-- Lines 66–122 of `cycleflow.py`.  The categorical reorder of lines
112–120 sorts the columns into `duration_cols` order; the projection on
line 80 already produced them in that order, so the output columns are
`duration_cols` exactly. -/
def calculate_cycle_flow_data (cycle_data : DataFrame) (cycle_names : List String)
    (frequency : Int → Int) (resample_on : String) :
    Except AggError (Option CFDTable) :=
  if (missingCols cycle_data.columns (resample_on :: durationCols cycle_names)).isEmpty then
    if (validRows cycle_data.columns resample_on (durationCols cycle_names)
        cycle_data.rows).isEmpty then
      Except.ok none
    else
      Except.ok (some
        { index := bucketIndex frequency
            (validRows cycle_data.columns resample_on (durationCols cycle_names)
              cycle_data.rows)
          cols := durationCols cycle_names
          values := (bucketSums frequency (durationCols cycle_names)
              (validRows cycle_data.columns resample_on (durationCols cycle_names)
                cycle_data.rows)).map
            (fun r => r.map convertCell) })
  else
    Except.error (AggError.keyError
      (missingCols cycle_data.columns (resample_on :: durationCols cycle_names)))

/-- The `"1M"` frequency on a `yyyymmdd`-encoded timestamp: the calendar
month index `year * 12 + (month - 1)`. -/
def monthlyBucket (t : Int) : Int :=
  (t / 10000) * 12 + (t % 10000) / 100 - 1

/-- `CycleFlowCalculator.write_chart`, lines 45–47: the renderer skips
drawing (with a warning) exactly when the table has zero rows. -/
def write_chart_skips (t : CFDTable) : Bool :=
  t.index.length == 0

/-! ### Helper lemmas -/

theorem intRange_self (a : Int) : intRange a a = [a] := by
  unfold intRange
  rw [sub_self, zero_add]
  simp [List.range_succ]

theorem mem_intRange (x a b : Int) : x ∈ intRange a b ↔ a ≤ x ∧ x ≤ b := by
  unfold intRange
  rw [List.mem_map]
  constructor
  · rintro ⟨i, hi, rfl⟩
    rw [List.mem_range] at hi
    omega
  · rintro ⟨h1, h2⟩
    refine ⟨(x - a).toNat, ?_, ?_⟩
    · rw [List.mem_range]; omega
    · omega

theorem intRange_ne_nil (a b : Int) (hab : a ≤ b) : intRange a b ≠ [] := by
  have : a ∈ intRange a b := (mem_intRange a a b).mpr ⟨le_refl a, hab⟩
  exact List.ne_nil_of_mem this

theorem intRange_sorted (a b : Int) : (intRange a b).Pairwise (· < ·) := by
  unfold intRange
  exact List.Pairwise.map _ (fun i j (h : i < j) => by omega) (List.pairwise_lt_range _)

theorem foldl_min_le_init (t : List Int) (a : Int) : t.foldl min a ≤ a := by
  induction t generalizing a with
  | nil => simp
  | cons h t ih =>
    simp only [List.foldl_cons]
    exact le_trans (ih (min a h)) (min_le_left a h)

theorem foldl_min_le_mem (t : List Int) (a x : Int) (hx : x ∈ t) : t.foldl min a ≤ x := by
  induction t generalizing a with
  | nil => cases hx
  | cons h t ih =>
    simp only [List.foldl_cons]
    rcases List.mem_cons.mp hx with rfl | hx
    · exact le_trans (foldl_min_le_init t (min a x)) (min_le_right a x)
    · exact ih (min a h) hx

theorem init_le_foldl_max (t : List Int) (a : Int) : a ≤ t.foldl max a := by
  induction t generalizing a with
  | nil => simp
  | cons h t ih =>
    simp only [List.foldl_cons]
    exact le_trans (le_max_left a h) (ih (max a h))

theorem mem_le_foldl_max (t : List Int) (a x : Int) (hx : x ∈ t) : x ≤ t.foldl max a := by
  induction t generalizing a with
  | nil => cases hx
  | cons h t ih =>
    simp only [List.foldl_cons]
    rcases List.mem_cons.mp hx with rfl | hx
    · exact le_trans (le_max_right a x) (init_le_foldl_max t (max a x))
    · exact ih (max a h) hx

theorem listMin_le_of_mem (l : List Int) (x : Int) (hx : x ∈ l) : listMin l ≤ x := by
  cases l with
  | nil => cases hx
  | cons h t =>
    simp only [listMin]
    rcases List.mem_cons.mp hx with rfl | hx
    · exact foldl_min_le_init t x
    · exact foldl_min_le_mem t h x hx

theorem le_listMax_of_mem (l : List Int) (x : Int) (hx : x ∈ l) : x ≤ listMax l := by
  cases l with
  | nil => cases hx
  | cons h t =>
    simp only [listMax]
    rcases List.mem_cons.mp hx with rfl | hx
    · exact init_le_foldl_max t x
    · exact mem_le_foldl_max t h x hx

theorem listMin_le_listMax (l : List Int) (hl : l ≠ []) : listMin l ≤ listMax l := by
  cases l with
  | nil => exact absurd rfl hl
  | cons h t =>
    exact le_trans (listMin_le_of_mem (h :: t) h (List.mem_cons_self h t))
      (le_listMax_of_mem (h :: t) h (List.mem_cons_self h t))

theorem bucketsOf_ne_nil (frequency : Int → Int) (valid : List (Int × List Int))
    (hv : valid ≠ []) : bucketsOf frequency valid ≠ [] := by
  simpa [bucketsOf] using hv

theorem bucketIndex_ne_nil (frequency : Int → Int) (valid : List (Int × List Int))
    (hv : valid ≠ []) : bucketIndex frequency valid ≠ [] := by
  apply intRange_ne_nil
  exact listMin_le_listMax _ (bucketsOf_ne_nil frequency valid hv)

theorem mem_bucketIndex (frequency : Int → Int) (valid : List (Int × List Int))
    (p : Int × List Int) (hp : p ∈ valid) : frequency p.1 ∈ bucketIndex frequency valid := by
  have hb : frequency p.1 ∈ bucketsOf frequency valid := by
    simp only [bucketsOf, List.mem_map]
    exact ⟨p, hp, rfl⟩
  exact (mem_intRange _ _ _).mpr
    ⟨listMin_le_of_mem _ _ hb, le_listMax_of_mem _ _ hb⟩

/-- Anatomy of a successful, non-sentinel run: the kept rows are nonempty
and the table is exactly the resampled, converted, reordered frame. -/
theorem calc_ok_some (cycle_data : DataFrame) (cycle_names : List String)
    (frequency : Int → Int) (resample_on : String) (table : CFDTable)
    (h : calculate_cycle_flow_data cycle_data cycle_names frequency resample_on
      = Except.ok (some table)) :
    validRows cycle_data.columns resample_on (durationCols cycle_names) cycle_data.rows ≠ []
    ∧ table =
      { index := bucketIndex frequency
          (validRows cycle_data.columns resample_on (durationCols cycle_names)
            cycle_data.rows)
        cols := durationCols cycle_names
        values := (bucketSums frequency (durationCols cycle_names)
            (validRows cycle_data.columns resample_on (durationCols cycle_names)
              cycle_data.rows)).map
          (fun r => r.map convertCell) } := by
  unfold calculate_cycle_flow_data at h
  by_cases hm : (missingCols cycle_data.columns
      (resample_on :: durationCols cycle_names)).isEmpty
  · rw [if_pos hm] at h
    by_cases hv : (validRows cycle_data.columns resample_on (durationCols cycle_names)
        cycle_data.rows).isEmpty
    · rw [if_pos hv] at h
      injection h with h'
      exact Option.noConfusion h'
    · rw [if_neg hv] at h
      injection h with h'
      injection h' with h''
      refine ⟨?_, h''.symm⟩
      intro hnil
      exact hv (by rw [hnil]; rfl)
  · rw [if_neg hm] at h
    exact Except.noConfusion h

/-- The result depends on the input rows only through the kept projected
rows. -/
theorem calc_congr_valid (columns : List String) (rows1 rows2 : List (List Cell))
    (cycle_names : List String) (frequency : Int → Int) (resample_on : String)
    (h : validRows columns resample_on (durationCols cycle_names) rows1
       = validRows columns resample_on (durationCols cycle_names) rows2) :
    calculate_cycle_flow_data ⟨columns, rows1⟩ cycle_names frequency resample_on
      = calculate_cycle_flow_data ⟨columns, rows2⟩ cycle_names frequency resample_on := by
  unfold calculate_cycle_flow_data
  simp only [h]

theorem validRows_append (columns : List String) (resample_on : String)
    (dcols : List String) (xs ys : List (List Cell)) :
    validRows columns resample_on dcols (xs ++ ys)
      = validRows columns resample_on dcols xs ++ validRows columns resample_on dcols ys := by
  simp [validRows, List.filter_append]

theorem validRows_cons_invalid (columns : List String) (resample_on : String)
    (dcols : List String) (bad : List Cell) (ys : List (List Cell))
    (hbad : (lookupCell columns bad resample_on).getD 0 = 0) :
    validRows columns resample_on dcols (bad :: ys)
      = validRows columns resample_on dcols ys := by
  unfold validRows
  rw [List.map_cons, List.filter_cons]
  have : ((projectRow columns resample_on dcols bad).1 != 0) = false := by
    simp [projectRow, hbad]
  rw [this]
  simp

theorem readCell_set_zero (row : List Cell) (i j : Nat) (h : row.get? i = some none) :
    (readCell (row.set i (some 0)) j).getD 0 = (readCell row j).getD 0 := by
  by_cases hij : i = j
  · subst hij
    have hlen : i < row.length := by
      by_contra hge
      rw [List.get?_len_le (le_of_not_lt hge)] at h
      exact Option.noConfusion h
    unfold readCell
    rw [List.get?_set_eq_of_lt _ hlen, h]
    rfl
  · unfold readCell
    rw [List.get?_set_ne _ _ hij]

theorem lookupCell_set_zero (columns : List String) (row : List Cell) (i : Nat) (name : String)
    (h : row.get? i = some none) :
    (lookupCell columns (row.set i (some 0)) name).getD 0
      = (lookupCell columns row name).getD 0 := by
  rcases hk : columns.indexOf? name with _ | k
  · simp only [lookupCell, hk]
  · simp only [lookupCell, hk]
    exact readCell_set_zero row i k h

theorem projectRow_set_zero (columns : List String) (resample_on : String) (dcols : List String)
    (row : List Cell) (i : Nat) (h : row.get? i = some none) :
    projectRow columns resample_on dcols (row.set i (some 0))
      = projectRow columns resample_on dcols row := by
  unfold projectRow
  rw [lookupCell_set_zero columns row i resample_on h,
      List.map_congr_left (fun c _ => lookupCell_set_zero columns row i c h)]

theorem validRows_set_zero (columns : List String) (resample_on : String) (dcols : List String)
    (xs ys : List (List Cell)) (row : List Cell) (i : Nat) (h : row.get? i = some none) :
    validRows columns resample_on dcols (xs ++ row.set i (some 0) :: ys)
      = validRows columns resample_on dcols (xs ++ row :: ys) := by
  rw [validRows_append, validRows_append]
  unfold validRows
  rw [List.map_cons, List.map_cons, projectRow_set_zero columns resample_on dcols row i h]

/-! ### Claims -/

/-- C1: for two items with stages [Dev, QA] — item1 with timestamp
2020-02-15, Dev 1 day (86400 s), QA 0.5 day (43200 s); item2 with
timestamp 2020-02-20, Dev 2 days (172800 s), QA missing — aggregated at
monthly frequency, the result is a table with exactly one row, for
February 2020 (month index 24241, the bucket of every February 2020
date, month-end 2020-02-29 included), with Dev = 3.0 and QA = 0.5, and
columns in the order [Dev duration, QA duration]. -/
theorem spec_c1_end_to_end_example :
    calculate_cycle_flow_data
      ⟨["completed_timestamp", "Dev duration", "QA duration"],
        [[some 20200215, some 86400, some 43200], [some 20200220, some 172800, none]]⟩
      ["Dev", "QA"] monthlyBucket "completed_timestamp"
    = Except.ok (some ⟨[24241], ["Dev duration", "QA duration"], [[3, 1/2]]⟩)
    ∧ monthlyBucket 20200215 = 24241 ∧ monthlyBucket 20200229 = 24241 := by
  refine ⟨?_, by decide, by decide⟩
  have h1 : toDays 259200 = 3 := by norm_num [toDays]
  have h2 : toDays 43200 = 1/2 := by norm_num [toDays]
  show Except.ok (some (⟨[24241], ["Dev duration", "QA duration"],
      [[toDays 259200, toDays 43200]]⟩ : CFDTable))
    = Except.ok (some ⟨[24241], ["Dev duration", "QA duration"], [[3, 1/2]]⟩)
  rw [h1, h2]

/-- C2: a missing (null) duration cell is counted as exactly 0: replacing
it by an explicit zero duration changes nothing in the result (first
conjunct, for an arbitrary row of an arbitrary table), and a row with a
valid timestamp and a missing stage-B duration is neither dropped nor an
error — stage A still contributes normally and stage B totals 0 (second
conjunct, for arbitrary timestamp, duration and frequency). -/
theorem spec_c2_missing_duration_zero
    (columns : List String) (xs ys : List (List Cell)) (row : List Cell) (i : Nat)
    (cycle_names : List String) (frequency : Int → Int) (resample_on : String)
    (t a : Int)
    (hcell : row.get? i = some none) (ht : t ≠ 0) :
    calculate_cycle_flow_data ⟨columns, xs ++ row :: ys⟩ cycle_names frequency resample_on
      = calculate_cycle_flow_data ⟨columns, xs ++ row.set i (some 0) :: ys⟩
          cycle_names frequency resample_on
    ∧ calculate_cycle_flow_data
        ⟨["completed_timestamp", "A duration", "B duration"], [[some t, some a, none]]⟩
        ["A", "B"] frequency "completed_timestamp"
      = Except.ok (some ⟨[frequency t], ["A duration", "B duration"], [[toDays a, 0]]⟩) := by
  constructor
  · exact calc_congr_valid columns (xs ++ row :: ys) (xs ++ row.set i (some 0) :: ys)
      cycle_names frequency resample_on
      (validRows_set_zero columns resample_on (durationCols cycle_names) xs ys row i hcell).symm
  · have ht' : (t != 0) = true := by simpa using ht
    have hv : validRows ["completed_timestamp", "A duration", "B duration"]
        "completed_timestamp" (durationCols ["A", "B"]) [[some t, some a, none]]
        = [(t, [a, 0])] := by
      unfold validRows
      show List.filter (fun p => p.1 != 0) [(t, [a, 0])] = [(t, [a, 0])]
      rw [List.filter_cons]
      simp [ht']
    unfold calculate_cycle_flow_data
    dsimp only
    rw [hv]
    rw [if_pos (show (missingCols ["completed_timestamp", "A duration", "B duration"]
        ("completed_timestamp" :: durationCols ["A", "B"])).isEmpty = true from rfl)]
    rw [if_neg (show ¬ ([(t, [a, 0])].isEmpty = true) from by simp)]
    have hbi : bucketIndex frequency [(t, [a, 0])] = [frequency t] := by
      show intRange (frequency t) (frequency t) = [frequency t]
      exact intRange_self (frequency t)
    have hgroup : [(t, [a, 0])].filter (fun p => frequency p.1 == frequency t)
        = [(t, [a, 0])] := by
      rw [List.filter_cons]
      simp
    have hbs : bucketSums frequency (durationCols ["A", "B"]) [(t, [a, 0])]
        = [[some a, some 0]] := by
      unfold bucketSums
      rw [hbi]
      rw [List.map_cons, List.map_nil]
      unfold bucketSum
      rw [hgroup]
      simp [durationCols, List.range_succ]
    rw [hbi, hbs]
    simp [convertCell, toDays, durationCols]

/-- Witness for C2 at a concrete input: a two-row table where the second
row's stage-A duration cell is missing, and a one-row table with a
missing stage-B duration. -/
theorem spec_c2_missing_duration_zero_witness :
    calculate_cycle_flow_data
        ⟨["completed_timestamp", "A duration"],
          [[some 20200215, some 86400]] ++ [some 20200220, none] :: []⟩
        ["A"] monthlyBucket "completed_timestamp"
      = calculate_cycle_flow_data
        ⟨["completed_timestamp", "A duration"],
          [[some 20200215, some 86400]] ++ ([some 20200220, none] : List Cell).set 1 (some 0) :: []⟩
        ["A"] monthlyBucket "completed_timestamp"
    ∧ calculate_cycle_flow_data
        ⟨["completed_timestamp", "A duration", "B duration"],
          [[some 20200215, some 172800, none]]⟩
        ["A", "B"] monthlyBucket "completed_timestamp"
      = Except.ok (some ⟨[monthlyBucket 20200215], ["A duration", "B duration"],
          [[toDays 172800, 0]]⟩) :=
  spec_c2_missing_duration_zero ["completed_timestamp", "A duration"]
    [[some 20200215, some 86400]] [] [some 20200220, none] 1 ["A"] monthlyBucket
    "completed_timestamp" 20200215 172800 (by decide) (by decide)

/-- C3: a row whose filled bucketing timestamp is the zero sentinel (it
was missing, or literally zero-length) contributes nothing: deleting it
leaves the result unchanged (first conjunct); and when every row is so
affected, the result is the explicit no-data sentinel `Except.ok none` —
not an empty table and not an error (second conjunct). -/
theorem spec_c3_timestamp_drop
    (columns : List String) (xs ys : List (List Cell)) (bad : List Cell)
    (cycle_names : List String) (frequency : Int → Int) (resample_on : String)
    (rows : List (List Cell))
    (hbad : (lookupCell columns bad resample_on).getD 0 = 0)
    (hall : ∀ row ∈ rows, (lookupCell columns row resample_on).getD 0 = 0)
    (hmiss : (missingCols columns (resample_on :: durationCols cycle_names)).isEmpty = true) :
    calculate_cycle_flow_data ⟨columns, xs ++ bad :: ys⟩ cycle_names frequency resample_on
      = calculate_cycle_flow_data ⟨columns, xs ++ ys⟩ cycle_names frequency resample_on
    ∧ calculate_cycle_flow_data ⟨columns, rows⟩ cycle_names frequency resample_on
      = Except.ok none := by
  constructor
  · apply calc_congr_valid
    rw [validRows_append, validRows_append,
        validRows_cons_invalid columns resample_on (durationCols cycle_names) bad ys hbad]
  · have hv : validRows columns resample_on (durationCols cycle_names) rows = [] := by
      unfold validRows
      apply List.eq_nil_iff_forall_not_mem.mpr
      intro p hp
      rw [List.mem_filter] at hp
      obtain ⟨hpm, hpred⟩ := hp
      rw [List.mem_map] at hpm
      obtain ⟨row, hrow, rfl⟩ := hpm
      have h0 : (projectRow columns resample_on (durationCols cycle_names) row).1 = 0 :=
        hall row hrow
      rw [h0] at hpred
      exact absurd hpred (by decide)
    unfold calculate_cycle_flow_data
    dsimp only
    rw [if_pos hmiss, hv]
    rfl

/-- Witness for C3 at a concrete input: dropping a row with a missing
timestamp changes nothing, and a table whose rows all have missing or
zero timestamps yields the no-data sentinel. -/
theorem spec_c3_timestamp_drop_witness :
    calculate_cycle_flow_data
        ⟨["completed_timestamp", "A duration"],
          [[some 20200215, some 86400]] ++ [none, some 7] :: []⟩
        ["A"] monthlyBucket "completed_timestamp"
      = calculate_cycle_flow_data
        ⟨["completed_timestamp", "A duration"], [[some 20200215, some 86400]] ++ []⟩
        ["A"] monthlyBucket "completed_timestamp"
    ∧ calculate_cycle_flow_data
        ⟨["completed_timestamp", "A duration"], [[none, some 3], [some 0, some 4]]⟩
        ["A"] monthlyBucket "completed_timestamp"
      = Except.ok none :=
  spec_c3_timestamp_drop ["completed_timestamp", "A duration"]
    [[some 20200215, some 86400]] [] [none, some 7] ["A"] monthlyBucket
    "completed_timestamp" [[none, some 3], [some 0, some 4]]
    (by decide) (by decide) (by decide)

/-- C4 counterexample: with stage B configured but no "B duration" column
in the table, the aggregator fails with the pandas `KeyError` from column
selection, which is not the repository's `ConfigurationError`: the claim
that it "fails with a ConfigurationError" names the wrong error. -/
theorem spec_c4_counterexample :
    calculate_cycle_flow_data
      ⟨["completed_timestamp", "A duration"], [[some 20200215, some 86400]]⟩
      ["A", "B"] monthlyBucket "completed_timestamp"
    = Except.error (AggError.keyError ["B duration"])
    ∧ isConfigurationError (AggError.keyError ["B duration"]) = false := by
  exact ⟨by decide, by decide⟩

/-- C4 (amended): for every input table and stage list containing a name
whose duration column is absent, the aggregator fails — with the column
lookup `KeyError`, not the repository's `ConfigurationError` — before any
aggregation occurs (the error depends only on the column set, never on
the rows), and the no-data sentinel is never substituted. -/
theorem spec_c4_missing_column_fails (cycle_data : DataFrame) (cycle_names : List String)
    (frequency : Int → Int) (resample_on : String) (name : String)
    (hmem : name ∈ cycle_names) (habs : (name ++ " duration") ∉ cycle_data.columns) :
    calculate_cycle_flow_data cycle_data cycle_names frequency resample_on
      = Except.error (AggError.keyError
          (missingCols cycle_data.columns (resample_on :: durationCols cycle_names)))
    ∧ isConfigurationError (AggError.keyError
        (missingCols cycle_data.columns (resample_on :: durationCols cycle_names)))
      = false := by
  have h1 : (name ++ " duration") ∈ resample_on :: durationCols cycle_names :=
    List.mem_cons_of_mem _ (List.mem_map_of_mem _ hmem)
  have h2 : (name ++ " duration")
      ∈ missingCols cycle_data.columns (resample_on :: durationCols cycle_names) := by
    unfold missingCols
    rw [List.mem_filter]
    refine ⟨h1, ?_⟩
    rw [Bool.not_eq_true']
    rw [← Bool.not_eq_true]
    intro hcon
    exact habs (List.mem_of_elem_eq_true hcon)
  refine ⟨?_, rfl⟩
  unfold calculate_cycle_flow_data
  rw [if_neg ?_]
  intro hemp
  rw [List.isEmpty_iff] at hemp
  rw [hemp] at h2
  exact List.not_mem_nil _ h2

/-- Witness for C4's amended claim at a concrete input. -/
theorem spec_c4_missing_column_fails_witness :
    calculate_cycle_flow_data
      ⟨["completed_timestamp", "A duration"], [[some 20200215, some 86400]]⟩
      ["A", "C"] monthlyBucket "completed_timestamp"
    = Except.error (AggError.keyError
        (missingCols ["completed_timestamp", "A duration"]
          ("completed_timestamp" :: durationCols ["A", "C"])))
    ∧ isConfigurationError (AggError.keyError
        (missingCols ["completed_timestamp", "A duration"]
          ("completed_timestamp" :: durationCols ["A", "C"])))
      = false :=
  spec_c4_missing_column_fails
    ⟨["completed_timestamp", "A duration"], [[some 20200215, some 86400]]⟩
    ["A", "C"] monthlyBucket "completed_timestamp" "C" (by decide) (by decide)

/-- C5: whenever the aggregator returns a table (not the no-data
sentinel), its columns are exactly the duration columns of the configured
stage list, in the stage list's order — including stages whose total is
zero everywhere, and independently of the input's own column order. -/
theorem spec_c5_column_order (cycle_data : DataFrame) (cycle_names : List String)
    (frequency : Int → Int) (resample_on : String) (table : CFDTable)
    (h : calculate_cycle_flow_data cycle_data cycle_names frequency resample_on
      = Except.ok (some table)) :
    table.cols = durationCols cycle_names := by
  obtain ⟨-, rfl⟩ := calc_ok_some cycle_data cycle_names frequency resample_on table h
  rfl

/-- Witness for C5 at a concrete input. -/
theorem spec_c5_column_order_witness :
    (⟨[24241], ["A duration"], [[toDays 86400]]⟩ : CFDTable).cols = durationCols ["A"] :=
  spec_c5_column_order
    ⟨["completed_timestamp", "A duration"], [[some 20200215, some 86400]]⟩
    ["A"] monthlyBucket "completed_timestamp"
    ⟨[24241], ["A duration"], [[toDays 86400]]⟩ rfl

/-- C6: every value of a returned table is the bucket's native summed
duration converted by the day division (`convertCell`, i.e. seconds over
86400, with missing sums zero-filled), and a summed duration of exactly
36 hours (129600 s) converts to exactly 1.5. -/
theorem spec_c6_unit_conversion (cycle_data : DataFrame) (cycle_names : List String)
    (frequency : Int → Int) (resample_on : String) (table : CFDTable)
    (h : calculate_cycle_flow_data cycle_data cycle_names frequency resample_on
      = Except.ok (some table)) :
    table.values = (bucketSums frequency (durationCols cycle_names)
        (validRows cycle_data.columns resample_on (durationCols cycle_names)
          cycle_data.rows)).map (List.map convertCell)
    ∧ convertCell (some 129600) = 3/2 := by
  obtain ⟨-, rfl⟩ := calc_ok_some cycle_data cycle_names frequency resample_on table h
  refine ⟨rfl, ?_⟩
  norm_num [convertCell, toDays]

/-- Witness for C6 at a concrete input whose single bucket sums to 36
hours. -/
theorem spec_c6_unit_conversion_witness :
    (⟨[24241], ["A duration"], [[toDays 129600]]⟩ : CFDTable).values
      = (bucketSums monthlyBucket (durationCols ["A"])
          (validRows ["completed_timestamp", "A duration"] "completed_timestamp"
            (durationCols ["A"]) [[some 20200215, some 129600]])).map (List.map convertCell)
    ∧ convertCell (some 129600) = 3/2 :=
  spec_c6_unit_conversion
    ⟨["completed_timestamp", "A duration"], [[some 20200215, some 129600]]⟩
    ["A"] monthlyBucket "completed_timestamp"
    ⟨[24241], ["A duration"], [[toDays 129600]]⟩ rfl

/-- C7 counterexample: two items, one completing in February 2020 (bucket
24241) and one in April 2020 (bucket 24243).  No item falls in March 2020
(bucket 24242), yet the output contains a zero-filled row for it: pandas
resample emits every bucket in the contiguous range, so empty buckets
between populated periods are NOT absent, refuting the claim. -/
theorem spec_c7_counterexample :
    calculate_cycle_flow_data
      ⟨["completed_timestamp", "A duration"],
        [[some 20200215, some 86400], [some 20200415, some 86400]]⟩
      ["A"] monthlyBucket "completed_timestamp"
    = Except.ok (some ⟨[24241, 24242, 24243], ["A duration"], [[1], [0], [1]]⟩)
    ∧ monthlyBucket 20200215 ≠ 24242 ∧ monthlyBucket 20200415 ≠ 24242 := by
  refine ⟨?_, by decide, by decide⟩
  have h1 : toDays 86400 = 1 := by norm_num [toDays]
  show Except.ok (some (⟨[24241, 24242, 24243], ["A duration"],
      [[toDays 86400], [0], [toDays 86400]]⟩ : CFDTable))
    = Except.ok (some ⟨[24241, 24242, 24243], ["A duration"], [[1], [0], [1]]⟩)
  rw [h1]

/-- C7 (amended): a returned table has one row per bucket in the
contiguous range from the earliest to the latest populated bucket (empty
buckets inside the range included, zero-filled), its index is strictly
increasing, it has exactly one value row per bucket, and every populated
bucket appears in the index. -/
theorem spec_c7_contiguous_buckets (cycle_data : DataFrame) (cycle_names : List String)
    (frequency : Int → Int) (resample_on : String) (table : CFDTable)
    (h : calculate_cycle_flow_data cycle_data cycle_names frequency resample_on
      = Except.ok (some table)) :
    table.index = bucketIndex frequency
        (validRows cycle_data.columns resample_on (durationCols cycle_names) cycle_data.rows)
    ∧ table.index.Pairwise (· < ·)
    ∧ table.values.length = table.index.length
    ∧ (bucketsOf frequency
        (validRows cycle_data.columns resample_on (durationCols cycle_names)
          cycle_data.rows)).all table.index.contains = true := by
  obtain ⟨-, rfl⟩ := calc_ok_some cycle_data cycle_names frequency resample_on table h
  refine ⟨rfl, intRange_sorted _ _, ?_, ?_⟩
  · simp [bucketSums]
  · rw [List.all_eq_true]
    intro b hb
    apply List.elem_eq_true_of_mem
    exact (mem_intRange _ _ _).mpr ⟨listMin_le_of_mem _ _ hb, le_listMax_of_mem _ _ hb⟩

/-- Witness for C7's amended claim at the February/April input. -/
theorem spec_c7_contiguous_buckets_witness :
    (⟨[24241, 24242, 24243], ["A duration"],
        [[toDays 86400], [0], [toDays 86400]]⟩ : CFDTable).index
      = bucketIndex monthlyBucket
          (validRows ["completed_timestamp", "A duration"] "completed_timestamp"
            (durationCols ["A"])
            [[some 20200215, some 86400], [some 20200415, some 86400]])
    ∧ (⟨[24241, 24242, 24243], ["A duration"],
        [[toDays 86400], [0], [toDays 86400]]⟩ : CFDTable).index.Pairwise (· < ·)
    ∧ (⟨[24241, 24242, 24243], ["A duration"],
        [[toDays 86400], [0], [toDays 86400]]⟩ : CFDTable).values.length
      = (⟨[24241, 24242, 24243], ["A duration"],
        [[toDays 86400], [0], [toDays 86400]]⟩ : CFDTable).index.length
    ∧ (bucketsOf monthlyBucket
        (validRows ["completed_timestamp", "A duration"] "completed_timestamp"
          (durationCols ["A"])
          [[some 20200215, some 86400], [some 20200415, some 86400]])).all
        (⟨[24241, 24242, 24243], ["A duration"],
          [[toDays 86400], [0], [toDays 86400]]⟩ : CFDTable).index.contains = true :=
  spec_c7_contiguous_buckets
    ⟨["completed_timestamp", "A duration"],
      [[some 20200215, some 86400], [some 20200415, some 86400]]⟩
    ["A"] monthlyBucket "completed_timestamp"
    ⟨[24241, 24242, 24243], ["A duration"], [[toDays 86400], [0], [toDays 86400]]⟩ rfl

/-- C8: the aggregation is deterministic — a pure function of its inputs:
two invocations on identical tables and identical parameters return
identical results (same periods, values and column order, or the same
no-data sentinel, or the same error). -/
theorem spec_c8_deterministic (d1 d2 : DataFrame) (names1 names2 : List String)
    (f1 f2 : Int → Int) (r1 r2 : String)
    (hd : d1 = d2) (hn : names1 = names2) (hf : f1 = f2) (hr : r1 = r2) :
    calculate_cycle_flow_data d1 names1 f1 r1 = calculate_cycle_flow_data d2 names2 f2 r2 := by
  rw [hd, hn, hf, hr]

/-- Witness for C8: two identical concrete invocations agree. -/
theorem spec_c8_deterministic_witness :
    calculate_cycle_flow_data
      ⟨["completed_timestamp", "A duration"], [[some 20200215, some 86400]]⟩
      ["A"] monthlyBucket "completed_timestamp"
    = calculate_cycle_flow_data
      ⟨["completed_timestamp", "A duration"], [[some 20200215, some 86400]]⟩
      ["A"] monthlyBucket "completed_timestamp" :=
  spec_c8_deterministic _ _ _ _ _ _ _ _ rfl rfl rfl rfl

/-- C9: with an empty stage list and at least one row with a valid
bucketing timestamp, the aggregator returns a table (no error, no
sentinel) whose column list is empty and whose value rows are all empty —
only the bucket index remains. -/
theorem spec_c9_empty_stage_list (cycle_data : DataFrame) (frequency : Int → Int)
    (resample_on : String) (row : List Cell)
    (hcol : resample_on ∈ cycle_data.columns)
    (hrow : row ∈ cycle_data.rows)
    (hts : (lookupCell cycle_data.columns row resample_on).getD 0 ≠ 0) :
    calculate_cycle_flow_data cycle_data [] frequency resample_on
      = Except.ok (some
          { index := bucketIndex frequency
              (validRows cycle_data.columns resample_on (durationCols []) cycle_data.rows)
            cols := durationCols []
            values := (bucketSums frequency (durationCols [])
                (validRows cycle_data.columns resample_on (durationCols [])
                  cycle_data.rows)).map (List.map convertCell) })
    ∧ durationCols [] = []
    ∧ ((bucketSums frequency (durationCols [])
        (validRows cycle_data.columns resample_on (durationCols [])
          cycle_data.rows)).map (List.map convertCell)).all List.isEmpty = true := by
  have hc : cycle_data.columns.contains resample_on = true :=
    List.elem_eq_true_of_mem hcol
  have hm : (missingCols cycle_data.columns (resample_on :: durationCols [])).isEmpty
      = true := by
    simp [missingCols, durationCols, hc, hcol]
  have hvne : ¬ ((validRows cycle_data.columns resample_on (durationCols [])
      cycle_data.rows).isEmpty = true) := by
    rw [List.isEmpty_iff]
    intro hnil
    have hmem : projectRow cycle_data.columns resample_on (durationCols []) row
        ∈ validRows cycle_data.columns resample_on (durationCols []) cycle_data.rows := by
      unfold validRows
      rw [List.mem_filter]
      exact ⟨List.mem_map_of_mem _ hrow, by simpa [projectRow] using hts⟩
    rw [hnil] at hmem
    exact List.not_mem_nil _ hmem
  refine ⟨?_, rfl, ?_⟩
  · unfold calculate_cycle_flow_data
    rw [if_pos hm, if_neg hvne]
  · rw [List.all_eq_true]
    intro x hx
    rw [List.mem_map] at hx
    obtain ⟨r, hr, rfl⟩ := hx
    unfold bucketSums at hr
    rw [List.mem_map] at hr
    obtain ⟨b, hb, rfl⟩ := hr
    rfl

/-- Witness for C9 at a concrete input. -/
theorem spec_c9_empty_stage_list_witness :
    calculate_cycle_flow_data
      ⟨["completed_timestamp", "A duration"], [[some 20200215, some 86400]]⟩
      [] monthlyBucket "completed_timestamp"
      = Except.ok (some
          { index := bucketIndex monthlyBucket
              (validRows ["completed_timestamp", "A duration"] "completed_timestamp"
                (durationCols []) [[some 20200215, some 86400]])
            cols := durationCols []
            values := (bucketSums monthlyBucket (durationCols [])
                (validRows ["completed_timestamp", "A duration"] "completed_timestamp"
                  (durationCols []) [[some 20200215, some 86400]])).map
              (List.map convertCell) })
    ∧ durationCols [] = []
    ∧ ((bucketSums monthlyBucket (durationCols [])
        (validRows ["completed_timestamp", "A duration"] "completed_timestamp"
          (durationCols []) [[some 20200215, some 86400]])).map
        (List.map convertCell)).all List.isEmpty = true :=
  spec_c9_empty_stage_list
    ⟨["completed_timestamp", "A duration"], [[some 20200215, some 86400]]⟩
    monthlyBucket "completed_timestamp" [some 20200215, some 86400]
    (by decide) (by decide) (by decide)

/-- C10: a returned table always has at least one index entry and at
least one value row — a zero-row table is never returned, so the
renderer's zero-row branch (`write_chart`, lines 45–47) can never fire on
a table coming straight from the aggregator. -/
theorem spec_c10_no_empty_table (cycle_data : DataFrame) (cycle_names : List String)
    (frequency : Int → Int) (resample_on : String) (table : CFDTable)
    (h : calculate_cycle_flow_data cycle_data cycle_names frequency resample_on
      = Except.ok (some table)) :
    table.index ≠ [] ∧ table.values ≠ [] ∧ write_chart_skips table = false := by
  obtain ⟨hvne, rfl⟩ := calc_ok_some cycle_data cycle_names frequency resample_on table h
  have hne : bucketIndex frequency (validRows cycle_data.columns resample_on
      (durationCols cycle_names) cycle_data.rows) ≠ [] :=
    bucketIndex_ne_nil _ _ hvne
  refine ⟨hne, ?_, ?_⟩
  · intro hnil
    rw [List.map_eq_nil] at hnil
    unfold bucketSums at hnil
    rw [List.map_eq_nil] at hnil
    exact hne hnil
  · unfold write_chart_skips
    dsimp only
    rw [beq_eq_false_iff_ne]
    intro hlen
    rw [List.length_eq_zero] at hlen
    exact hne hlen

/-- Witness for C10 at a concrete input. -/
theorem spec_c10_no_empty_table_witness :
    (⟨[24241], ["A duration"], [[toDays 129600]]⟩ : CFDTable).index ≠ []
    ∧ (⟨[24241], ["A duration"], [[toDays 129600]]⟩ : CFDTable).values ≠ []
    ∧ write_chart_skips (⟨[24241], ["A duration"], [[toDays 129600]]⟩ : CFDTable) = false :=
  spec_c10_no_empty_table
    ⟨["completed_timestamp", "A duration"], [[some 20200216, some 129600]]⟩
    ["A"] monthlyBucket "completed_timestamp"
    ⟨[24241], ["A duration"], [[toDays 129600]]⟩ rfl
